import Mathlib

/-!
Verification of the expression-synthesis layer of rellic (the
`ASTBuilder` component), as exercised by `src/unittests/AST/ASTBuilder.cpp`.
The repository ships only the unit tests of the builder; the builder
itself is modelled here from the specification (sections 3, 4.1, 4.2,
4.3 and 7 of the design document), with the unit tests serving as
concrete anchors for every modelled branch.
-/

namespace Rellic

/-- Modelled from the spec: the fixed enumeration of built-in output
types owned by the external Type Catalog (section 3 "BuiltinType"):
distinct unsigned integer ranks, the signed `int` rank, the two
floating precisions, pointer-to-T, array-of-char and void-pointer. -/
inductive BuiltinType where
  | unsignedInt
  | unsignedLong
  | unsignedChar
  | unsignedShort
  | int
  | float
  | double
  | pointer (pointee : BuiltinType)
  | arrayOfChar (length : Nat)
  | voidPointer
  deriving DecidableEq, Repr

namespace BuiltinType

/-- Modelled from the spec: the pointer category of the cast
classifier's decision table (pointer-to-T and void-pointer). -/
def isPointer : BuiltinType → Bool
  | pointer _ => true
  | voidPointer => true
  | _ => false

/-- Modelled from the spec: the integral category of the cast
classifier's decision table (all integer ranks, signed or unsigned). -/
def isIntegral : BuiltinType → Bool
  | unsignedInt => true
  | unsignedLong => true
  | unsignedChar => true
  | unsignedShort => true
  | int => true
  | _ => false

/-- Modelled from the spec: the floating category of the cast
classifier's decision table (the two supported precisions). -/
def isFloating : BuiltinType → Bool
  | float => true
  | double => true
  | _ => false

end BuiltinType

/-- Modelled from the spec: the IntegerValue of the Value Model
(section 3): a bit width plus an unsigned magnitude of exactly that
width; no signedness is carried. -/
structure IntegerValue where
  bitWidth : Nat
  magnitude : Nat
  deriving DecidableEq, Repr

/-- Modelled from the spec: the two IEEE-754 precisions accepted by the
Value Model for floating values (section 3 "FloatValue"). -/
inductive FloatPrecision where
  | single
  | double
  deriving DecidableEq, Repr

/-- Modelled from the spec: the FloatValue of the Value Model: a
precision tag plus the IEEE-754 bit payload, kept abstract as a
natural number since this core never inspects it. -/
structure FloatValue where
  precision : FloatPrecision
  bits : Nat
  deriving DecidableEq, Repr

/-- Modelled from the spec: the seven recognized conversion kinds of
the cast classifier plus NullToPointer (section 4.3 decision table). -/
inductive CastKind where
  | NullToPointer
  | BitCast
  | PointerToIntegral
  | IntegralToPointer
  | IntegralCast
  | FloatingCast
  | IntegralToFloating
  | FloatingToIntegral
  deriving DecidableEq, Repr

/-- Modelled from the spec: the Expression node variants of the data
model (section 3): literals, the cast expression carrying a kind and a
target type, and the dereference node. Every node carries exactly one
BuiltinType, immutable once constructed. -/
inductive Expression where
  | intLit (value : Nat) (ty : BuiltinType)
  | charLit (value : Nat) (ty : BuiltinType)
  | strLit (bytes : List Nat) (ty : BuiltinType)
  | floatLit (bits : Nat) (ty : BuiltinType)
  | cast (kind : CastKind) (ty : BuiltinType) (operand : Expression)
  | deref (operand : Expression) (ty : BuiltinType)
  deriving DecidableEq, Repr

namespace Expression

/-- Modelled from the spec: the single BuiltinType every Expression
node carries (section 3). -/
def exprType : Expression → BuiltinType
  | intLit _ t => t
  | charLit _ t => t
  | strLit _ t => t
  | floatLit _ t => t
  | cast _ t _ => t
  | deref _ t => t

/-- Modelled from the spec: stripping of cast nodes around an
expression, the operation the tests invoke as IgnoreCasts when
unwrapping the operand of createUndefined (section 4.2). -/
def ignoreCasts : Expression → Expression
  | cast _ _ e => ignoreCasts e
  | e => e

end Expression

/-- Modelled from the spec: the error kinds of section 7, all local and
synchronous: UnsupportedWidth, UnsupportedPrecision, InvalidWidth and
UnsupportedConversion. -/
inductive Err where
  | UnsupportedWidth
  | UnsupportedPrecision
  | InvalidWidth
  | UnsupportedConversion
  deriving DecidableEq, Repr

/-- Modelled from the spec: the three evaluation contexts of the
null-pointer-constant predicate (section 4.2): never-value-dependent,
value-dependent-is-null, value-dependent-is-not-null. -/
inductive EvalMode where
  | neverValueDependent
  | valueDependentIsNull
  | valueDependentIsNotNull
  deriving DecidableEq, Repr

/-- Modelled from the spec: the structural null-pointer-constant
predicate of sections 4.3 and 9: a zero-valued integral literal is a
null constant, and so is such a literal cast to a compatible type
(void-pointer or an integral type); the verdict is independent of the
template or generic dependency context, hence of the mode. -/
def isNullConstant (e : Expression) (mode : EvalMode) : Bool :=
  match e with
  | .intLit 0 t => t.isIntegral
  | .cast _ t op => (t == .voidPointer || t.isIntegral) && isNullConstant op mode
  | _ => false

/-- Modelled from the spec: `synthesizeInt` (ASTBuilder::CreateIntLit,
whose implementation is absent from src/), section 4.1: the smallest
unsigned rank at or above the minimum literal rank that holds the
magnitude; width up to 32 yields unsigned-int, width up to 64 yields
unsigned-long, wider fails with UnsupportedWidth. -/
def synthesizeInt (v : IntegerValue) : Except Err Expression :=
  if v.bitWidth ≤ 32 then
    .ok (.intLit v.magnitude .unsignedInt)
  else if v.bitWidth ≤ 64 then
    .ok (.intLit v.magnitude .unsignedLong)
  else
    .error .UnsupportedWidth

/-- Modelled from the spec: `createCast` (ASTBuilder::CreateCStyleCast,
whose implementation is absent from src/), section 4.3: the kind is
selected by a decision table over the source and destination
categories, and any uncovered category pair fails with
UnsupportedConversion. The row order follows the unit tests of
src/unittests/AST/ASTBuilder.cpp, which pin the pointer-to-pointer
BitCast row before the null-constant row: casting CreateNull, a
pointer-typed null constant, to a pointer type must yield BitCast
(lines 281 to 301), while a zero integer literal cast to a pointer
type yields NullToPointer (lines 258 to 279). The classifier never
mutates the source; it wraps it in a CastExpression carrying the
destination type. -/
def createCast (destType : BuiltinType) (source : Expression) : Except Err Expression :=
  if destType.isPointer then
    if source.exprType.isPointer then
      .ok (.cast .BitCast destType source)
    else if isNullConstant source .neverValueDependent then
      .ok (.cast .NullToPointer destType source)
    else if source.exprType.isIntegral then
      .ok (.cast .IntegralToPointer destType source)
    else
      .error .UnsupportedConversion
  else if destType.isIntegral then
    if source.exprType.isPointer then
      .ok (.cast .PointerToIntegral destType source)
    else if source.exprType.isIntegral then
      .ok (.cast .IntegralCast destType source)
    else if source.exprType.isFloating then
      .ok (.cast .FloatingToIntegral destType source)
    else
      .error .UnsupportedConversion
  else if destType.isFloating then
    if source.exprType.isFloating then
      .ok (.cast .FloatingCast destType source)
    else if source.exprType.isIntegral then
      .ok (.cast .IntegralToFloating destType source)
    else
      .error .UnsupportedConversion
  else
    .error .UnsupportedConversion

/-- The set of (source category, destination category) pairs covered by
the decision table of createCast, as the spec presents it in section
4.3: pointer to pointer, pointer to integral, integral to pointer,
integral to integral, floating to floating, integral to floating and
floating to integral; every other pair is uncovered and must fail. -/
def coveredPair (srcType destType : BuiltinType) : Bool :=
  (srcType.isPointer && destType.isPointer) ||
  (srcType.isPointer && destType.isIntegral) ||
  (srcType.isIntegral && destType.isPointer) ||
  (srcType.isIntegral && destType.isIntegral) ||
  (srcType.isFloating && destType.isFloating) ||
  (srcType.isIntegral && destType.isFloating) ||
  (srcType.isFloating && destType.isIntegral)

/-- Modelled from the spec: `synthesizeAdjustedInt`
(ASTBuilder::CreateAdjustedIntLit, whose implementation is absent from
src/), section 4.1: the same literal as synthesizeInt and, only when
the bit width is strictly below the minimum literal rank, a cast to
the matching narrow type: widths up to 8 (width 1 included) go to
unsigned-char, width 16 to unsigned-short; from width 32 on the
literal is returned unchanged. -/
def synthesizeAdjustedInt (v : IntegerValue) : Except Err Expression :=
  match synthesizeInt v with
  | .error e => .error e
  | .ok lit =>
    if v.bitWidth ≤ 8 then
      createCast .unsignedChar lit
    else if v.bitWidth ≤ 16 then
      createCast .unsignedShort lit
    else
      .ok lit

/-- Modelled from the spec: `synthesizeChar` (ASTBuilder::CreateCharLit,
whose implementation is absent from src/), section 4.1: a
CharacterLiteral typed as the signed int rank for an 8-bit value; any
other width fails with InvalidWidth. -/
def synthesizeChar (v : IntegerValue) : Except Err Expression :=
  if v.bitWidth = 8 then
    .ok (.charLit v.magnitude .int)
  else
    .error .InvalidWidth

/-- Modelled from the spec: `synthesizeString` (ASTBuilder::CreateStrLit,
whose implementation is absent from src/), section 4.1: a
StringLiteral typed as an array-of-char whose declared length equals
the byte sequence's length. -/
def synthesizeString (bytes : List Nat) : Expression :=
  .strLit bytes (.arrayOfChar bytes.length)

/-- Modelled from the spec: `synthesizeFloat` (ASTBuilder::CreateFPLit,
whose implementation is absent from src/), section 4.1: a
FloatingLiteral typed float for single precision and double for double
precision. -/
def synthesizeFloat (v : FloatValue) : Expression :=
  match v.precision with
  | .single => .floatLit v.bits .float
  | .double => .floatLit v.bits .double

/-- Modelled from the spec: `createNullConstant` (ASTBuilder::CreateNull,
whose implementation is absent from src/), section 4.2: an
IntegerLiteral of value 0 and unsigned-int type wrapped in a cast to
void-pointer of kind NullToPointer. -/
def createNullConstant : Expression :=
  .cast .NullToPointer .voidPointer (.intLit 0 .unsignedInt)

/-- Modelled from the spec: `createUndefined` (ASTBuilder::CreateUndef,
whose implementation is absent from src/), section 4.2: the dereference,
at the requested type, of the canonical null constant cast to a pointer
to that type. -/
def createUndefined (t : BuiltinType) : Except Err Expression :=
  (createCast (.pointer t) createNullConstant).map (fun c => .deref c t)

instance : DecidableEq (Except Err Expression) := fun a b =>
  match a, b with
  | .ok x, .ok y =>
    if h : x = y then
      .isTrue (by rw [h])
    else
      .isFalse (by intro hc; exact h (Except.ok.inj hc))
  | .error x, .error y =>
    if h : x = y then
      .isTrue (by rw [h])
    else
      .isFalse (by intro hc; exact h (Except.error.inj hc))
  | .ok _, .error _ => .isFalse (by intro hc; exact Except.noConfusion hc)
  | .error _, .ok _ => .isFalse (by intro hc; exact Except.noConfusion hc)

/-! Helper lemmas: the three type categories of the decision table are
mutually exclusive, and a null constant always has pointer or integral
type. -/

theorem BuiltinType.isPointer_eq_false_of_isIntegral {t : BuiltinType}
    (h : t.isIntegral = true) : t.isPointer = false := by
  cases t <;> simp_all [BuiltinType.isIntegral, BuiltinType.isPointer]

theorem BuiltinType.isPointer_eq_false_of_isFloating {t : BuiltinType}
    (h : t.isFloating = true) : t.isPointer = false := by
  cases t <;> simp_all [BuiltinType.isFloating, BuiltinType.isPointer]

theorem BuiltinType.isIntegral_eq_false_of_isFloating {t : BuiltinType}
    (h : t.isFloating = true) : t.isIntegral = false := by
  cases t <;> simp_all [BuiltinType.isFloating, BuiltinType.isIntegral]

theorem BuiltinType.isFloating_eq_false_of_isIntegral {t : BuiltinType}
    (h : t.isIntegral = true) : t.isFloating = false := by
  cases t <;> simp_all [BuiltinType.isFloating, BuiltinType.isIntegral]

theorem exprType_of_isNullConstant {s : Expression} {m : EvalMode}
    (h : isNullConstant s m = true) :
    s.exprType.isPointer = true ∨ s.exprType.isIntegral = true := by
  cases s with
  | intLit v t =>
    cases v with
    | zero => right; simpa [isNullConstant, Expression.exprType] using h
    | succ n => simp [isNullConstant] at h
  | cast k t op =>
    simp only [isNullConstant, Bool.and_eq_true, Bool.or_eq_true, beq_iff_eq] at h
    rcases h.1 with h1 | h1
    · left; rw [Expression.exprType, h1]; rfl
    · right; rw [Expression.exprType]; exact h1
  | charLit v t => simp [isNullConstant] at h
  | strLit b t => simp [isNullConstant] at h
  | floatLit b t => simp [isNullConstant] at h
  | deref e t => simp [isNullConstant] at h

theorem createCast_eq_error_of_not_covered (d : BuiltinType) (s : Expression)
    (h : coveredPair s.exprType d = false) :
    createCast d s = .error .UnsupportedConversion := by
  have hnull := @exprType_of_isNullConstant s .neverValueDependent
  unfold createCast
  cases hN : isNullConstant s .neverValueDependent <;>
    cases hdP : d.isPointer <;>
    cases hdI : d.isIntegral <;>
    cases hdF : d.isFloating <;>
    cases hsP : s.exprType.isPointer <;>
    cases hsI : s.exprType.isIntegral <;>
    cases hsF : s.exprType.isFloating <;>
    simp_all [coveredPair]

/-- Claim C1, counterexample: the row "a null-constant source cast to
void-pointer yields NullToPointer" fails on the code for the canonical
null constant itself, which has pointer type: casting createNullConstant
to void-pointer yields a BitCast, as pinned by the unit test that casts
CreateNull to a pointer type and expects CK_BitCast. -/
theorem createCast_nullConstant_voidPointer_cx :
    isNullConstant createNullConstant .neverValueDependent = true ∧
    createCast .voidPointer createNullConstant
      = .ok (.cast .BitCast .voidPointer createNullConstant) ∧
    createCast .voidPointer createNullConstant
      ≠ .ok (.cast .NullToPointer .voidPointer createNullConstant) :=
  ⟨rfl, rfl, by decide⟩

/-- Claim C1, amended: createCast classifies each conversion into the
listed kind, with the null-constant row restricted to null-constant
sources of integral (non-pointer) type, every pointer source (null or
not) cast to a pointer type yielding BitCast, and the
integral-to-pointer row restricted to non-null integral sources; the
produced CastExpression carries exactly the destination type, and
every (source, dest) category pair not covered by the table fails with
UnsupportedConversion. -/
theorem createCast_table_amended :
    (∀ (d : BuiltinType) (s e : Expression),
        createCast d s = .ok e → e.exprType = d) ∧
    (∀ s : Expression, s.exprType.isIntegral = true →
        isNullConstant s .neverValueDependent = true →
        createCast .voidPointer s
          = .ok (.cast .NullToPointer .voidPointer s)) ∧
    (∀ (s : Expression) (d : BuiltinType), s.exprType.isPointer = true →
        d.isPointer = true →
        createCast d s = .ok (.cast .BitCast d s)) ∧
    (∀ (s : Expression) (d : BuiltinType), s.exprType.isIntegral = true →
        d.isIntegral = true →
        createCast d s = .ok (.cast .IntegralCast d s)) ∧
    (∀ s : Expression, s.exprType.isPointer = true →
        createCast .unsignedInt s
          = .ok (.cast .PointerToIntegral .unsignedInt s)) ∧
    (∀ s : Expression, s.exprType.isIntegral = true →
        isNullConstant s .neverValueDependent = false →
        createCast (.pointer .unsignedInt) s
          = .ok (.cast .IntegralToPointer (.pointer .unsignedInt) s)) ∧
    (∀ (s : Expression) (d : BuiltinType), s.exprType.isFloating = true →
        d.isFloating = true →
        createCast d s = .ok (.cast .FloatingCast d s)) ∧
    (∀ (s : Expression) (d : BuiltinType), s.exprType.isIntegral = true →
        d.isFloating = true →
        createCast d s = .ok (.cast .IntegralToFloating d s)) ∧
    (∀ (s : Expression) (d : BuiltinType), s.exprType.isFloating = true →
        d.isIntegral = true →
        createCast d s = .ok (.cast .FloatingToIntegral d s)) ∧
    (∀ (d : BuiltinType) (s : Expression), coveredPair s.exprType d = false →
        createCast d s = .error .UnsupportedConversion) := by
  refine ⟨?_, ?_, ?_, ?_, ?_, ?_, ?_, ?_, ?_, ?_⟩
  · intro d s e h
    unfold createCast at h
    split_ifs at h <;> injection h with h2 <;> subst h2 <;> rfl
  · intro s hs hn
    have hp := BuiltinType.isPointer_eq_false_of_isIntegral hs
    simp [createCast, show BuiltinType.isPointer .voidPointer = true from rfl,
      hp, hn]
  · intro s d hs hd
    simp [createCast, hd, hs]
  · intro s d hs hd
    have hdp := BuiltinType.isPointer_eq_false_of_isIntegral hd
    have hsp := BuiltinType.isPointer_eq_false_of_isIntegral hs
    simp [createCast, hdp, hd, hsp, hs]
  · intro s hs
    simp [createCast, show BuiltinType.isPointer .unsignedInt = false from rfl,
      show BuiltinType.isIntegral .unsignedInt = true from rfl, hs]
  · intro s hs hn
    have hsp := BuiltinType.isPointer_eq_false_of_isIntegral hs
    simp [createCast,
      show BuiltinType.isPointer (.pointer .unsignedInt) = true from rfl,
      hsp, hn, hs]
  · intro s d hs hd
    have h1 := BuiltinType.isPointer_eq_false_of_isFloating hd
    have h2 := BuiltinType.isIntegral_eq_false_of_isFloating hd
    simp [createCast, h1, h2, hd, hs]
  · intro s d hs hd
    have h1 := BuiltinType.isPointer_eq_false_of_isFloating hd
    have h2 := BuiltinType.isIntegral_eq_false_of_isFloating hd
    have h3 := BuiltinType.isPointer_eq_false_of_isIntegral hs
    have h4 := BuiltinType.isFloating_eq_false_of_isIntegral hs
    simp [createCast, h1, h2, h3, h4, hs, hd]
  · intro s d hs hd
    have h1 := BuiltinType.isPointer_eq_false_of_isIntegral hd
    have h2 := BuiltinType.isPointer_eq_false_of_isFloating hs
    have h3 := BuiltinType.isIntegral_eq_false_of_isFloating hs
    simp [createCast, h1, hd, h2, h3, hs]
  · exact fun d s h => createCast_eq_error_of_not_covered d s h

/-- Claim C1, witness: every row of the amended table applied to the
concrete conversions the unit tests exercise, the BitCast row both at
the null pointer-typed source and at a non-null one, and an uncovered
pair (float source, pointer destination) failing with
UnsupportedConversion. -/
theorem createCast_table_amended_witness :
    Expression.exprType
        (.cast .NullToPointer .voidPointer (.intLit 0 .unsignedInt))
      = .voidPointer ∧
    createCast .voidPointer (.intLit 0 .unsignedInt)
      = .ok (.cast .NullToPointer .voidPointer (.intLit 0 .unsignedInt)) ∧
    createCast (.pointer .int) createNullConstant
      = .ok (.cast .BitCast (.pointer .int) createNullConstant) ∧
    createCast (.pointer .int)
        (.cast .IntegralToPointer (.pointer .unsignedInt)
          (.intLit 48879 .unsignedInt))
      = .ok (.cast .BitCast (.pointer .int)
          (.cast .IntegralToPointer (.pointer .unsignedInt)
            (.intLit 48879 .unsignedInt))) ∧
    createCast .unsignedLong (.intLit 255 .unsignedInt)
      = .ok (.cast .IntegralCast .unsignedLong (.intLit 255 .unsignedInt)) ∧
    createCast .unsignedInt createNullConstant
      = .ok (.cast .PointerToIntegral .unsignedInt createNullConstant) ∧
    createCast (.pointer .unsignedInt) (.intLit 48879 .unsignedInt)
      = .ok (.cast .IntegralToPointer (.pointer .unsignedInt)
          (.intLit 48879 .unsignedInt)) ∧
    createCast .double (.floatLit 1078523331 .float)
      = .ok (.cast .FloatingCast .double (.floatLit 1078523331 .float)) ∧
    createCast .float (.intLit 57005 .unsignedInt)
      = .ok (.cast .IntegralToFloating .float (.intLit 57005 .unsignedInt)) ∧
    createCast .unsignedLong (.floatLit 4614253070214989087 .double)
      = .ok (.cast .FloatingToIntegral .unsignedLong
          (.floatLit 4614253070214989087 .double)) ∧
    createCast (.pointer .int) (.floatLit 0 .float)
      = .error .UnsupportedConversion :=
  ⟨createCast_table_amended.1 .voidPointer (.intLit 0 .unsignedInt)
      (.cast .NullToPointer .voidPointer (.intLit 0 .unsignedInt)) rfl,
   createCast_table_amended.2.1 (.intLit 0 .unsignedInt) rfl rfl,
   createCast_table_amended.2.2.1 createNullConstant (.pointer .int) rfl rfl,
   createCast_table_amended.2.2.1
      (.cast .IntegralToPointer (.pointer .unsignedInt)
        (.intLit 48879 .unsignedInt)) (.pointer .int) rfl rfl,
   createCast_table_amended.2.2.2.1 (.intLit 255 .unsignedInt)
      .unsignedLong rfl rfl,
   createCast_table_amended.2.2.2.2.1 createNullConstant rfl,
   createCast_table_amended.2.2.2.2.2.1 (.intLit 48879 .unsignedInt) rfl rfl,
   createCast_table_amended.2.2.2.2.2.2.1 (.floatLit 1078523331 .float)
      .double rfl rfl,
   createCast_table_amended.2.2.2.2.2.2.2.1 (.intLit 57005 .unsignedInt)
      .float rfl rfl,
   createCast_table_amended.2.2.2.2.2.2.2.2.1
      (.floatLit 4614253070214989087 .double) .unsignedLong rfl rfl,
   createCast_table_amended.2.2.2.2.2.2.2.2.2 (.pointer .int)
      (.floatLit 0 .float) rfl⟩

/-- Claim C2, counterexample: createNullConstant has pointer type, is a
null constant under every evaluation mode, yet createCast to the
pointer type pointer-to-int selects BitCast, not NullToPointer: the
pointer-to-pointer row wins, contradicting the claimed first-row
precedence of the null-constant row, exactly as the unit test at lines
281 to 301 of src/unittests/AST/ASTBuilder.cpp requires. -/
theorem createCast_pointerNull_bitcast_cx :
    BuiltinType.isPointer (Expression.exprType createNullConstant) = true ∧
    isNullConstant createNullConstant .neverValueDependent = true ∧
    isNullConstant createNullConstant .valueDependentIsNull = true ∧
    isNullConstant createNullConstant .valueDependentIsNotNull = true ∧
    createCast (.pointer .int) createNullConstant
      = .ok (.cast .BitCast (.pointer .int) createNullConstant) ∧
    createCast (.pointer .int) createNullConstant
      ≠ .ok (.cast .NullToPointer (.pointer .int) createNullConstant) :=
  ⟨rfl, rfl, rfl, rfl, rfl, by decide⟩

/-- Claim C2, amended: for every source expression of pointer type that
satisfies the null-pointer-constant predicate, createCast to any
pointer destination type selects kind BitCast: the pointer-to-pointer
row is evaluated before the null-constant row, which only catches
null-constant sources of non-pointer type. -/
theorem createCast_pointer_nullConstant_bitcast (s : Expression)
    (d : BuiltinType) (hs : s.exprType.isPointer = true)
    (_hn : ∀ m : EvalMode, isNullConstant s m = true)
    (hd : d.isPointer = true) :
    createCast d s = .ok (.cast .BitCast d s) := by
  simp [createCast, hd, hs]

/-- Claim C2, witness: the amended claim applied to the canonical null
constant, a pointer-typed null-constant source, and the destination
pointer-to-unsigned-int. -/
theorem createCast_pointer_nullConstant_bitcast_witness :
    createCast (.pointer .unsignedInt) createNullConstant
      = .ok (.cast .BitCast (.pointer .unsignedInt) createNullConstant) :=
  createCast_pointer_nullConstant_bitcast createNullConstant
    (.pointer .unsignedInt) rfl (fun m => by cases m <;> rfl) rfl

/-- Claim C3: null-constant detection in createCast is value-based: an
integer literal of value 0 of any integral type cast to any pointer
destination is classified NullToPointer, and the resulting cast
expression carries the destination type. -/
theorem createCast_zeroLiteral_nullToPointer (t d : BuiltinType)
    (ht : t.isIntegral = true) (hd : d.isPointer = true) :
    createCast d (.intLit 0 t) = .ok (.cast .NullToPointer d (.intLit 0 t)) ∧
    (Expression.cast .NullToPointer d (.intLit 0 t)).exprType = d := by
  have hp := BuiltinType.isPointer_eq_false_of_isIntegral ht
  refine ⟨?_, rfl⟩
  simp [createCast, hd, Expression.exprType, hp, isNullConstant, ht]

/-- Claim C3, witness: a plain unsigned-int-typed 0 literal cast to
void-pointer yields a cast of kind NullToPointer typed void-pointer. -/
theorem createCast_zeroLiteral_nullToPointer_witness :
    createCast .voidPointer (.intLit 0 .unsignedInt)
      = .ok (.cast .NullToPointer .voidPointer (.intLit 0 .unsignedInt)) ∧
    (Expression.cast .NullToPointer .voidPointer
        (.intLit 0 .unsignedInt)).exprType = .voidPointer :=
  createCast_zeroLiteral_nullToPointer .unsignedInt .voidPointer rfl rfl

/-- Claim C4: synthesizeInt returns an IntegerLiteral of unsigned-int
type holding exactly the input magnitude for every width up to 32, and
an IntegerLiteral of unsigned-long type for every width strictly
between 32 and 65. -/
theorem synthesizeInt_spec :
    (∀ v : IntegerValue, v.bitWidth ≤ 32 →
      synthesizeInt v = .ok (.intLit v.magnitude .unsignedInt)) ∧
    (∀ v : IntegerValue, 32 < v.bitWidth → v.bitWidth ≤ 64 →
      synthesizeInt v = .ok (.intLit v.magnitude .unsignedLong)) := by
  constructor
  · intro v h
    unfold synthesizeInt
    rw [if_pos h]
  · intro v h1 h2
    unfold synthesizeInt
    rw [if_neg (by omega), if_pos h2]

/-- Claim C4, witness: the 1-bit value 0 and the 8-bit value 42 map to
unsigned-int literals, the 64-bit value 42 to an unsigned-long
literal. -/
theorem synthesizeInt_spec_witness :
    synthesizeInt ⟨1, 0⟩ = .ok (.intLit 0 .unsignedInt) ∧
    synthesizeInt ⟨8, 42⟩ = .ok (.intLit 42 .unsignedInt) ∧
    synthesizeInt ⟨64, 42⟩ = .ok (.intLit 42 .unsignedLong) :=
  ⟨synthesizeInt_spec.1 ⟨1, 0⟩ (by decide),
   synthesizeInt_spec.1 ⟨8, 42⟩ (by decide),
   synthesizeInt_spec.2 ⟨64, 42⟩ (by decide) (by decide)⟩

/-- Claim C5: synthesizeAdjustedInt produces the same unsigned-int
literal as synthesizeInt and wraps it in a cast to unsigned-char for
widths 1 and 8, in a cast to unsigned-short for width 16, and for
width 32 or greater adds no cast, returning exactly what synthesizeInt
returns. -/
theorem synthesizeAdjustedInt_spec (v : IntegerValue) :
    ((v.bitWidth = 1 ∨ v.bitWidth = 8) →
      synthesizeAdjustedInt v
        = .ok (.cast .IntegralCast .unsignedChar
            (.intLit v.magnitude .unsignedInt))) ∧
    (v.bitWidth = 16 →
      synthesizeAdjustedInt v
        = .ok (.cast .IntegralCast .unsignedShort
            (.intLit v.magnitude .unsignedInt))) ∧
    (32 ≤ v.bitWidth → synthesizeAdjustedInt v = synthesizeInt v) := by
  refine ⟨?_, ?_, ?_⟩
  · rintro (h | h) <;>
      simp [synthesizeAdjustedInt, synthesizeInt, h, createCast,
        Expression.exprType, BuiltinType.isPointer, BuiltinType.isIntegral]
  · intro h
    simp [synthesizeAdjustedInt, synthesizeInt, h, createCast,
      Expression.exprType, BuiltinType.isPointer, BuiltinType.isIntegral]
  · intro h
    unfold synthesizeAdjustedInt
    rcases hsi : synthesizeInt v with e | lit
    · simp
    · simp only []
      rw [if_neg (by omega), if_neg (by omega)]

/-- Claim C5, witness: width 8 yields the unsigned-char cast, width 16
the unsigned-short cast, and width 64 the bare unsigned-long literal
synthesizeInt produces. -/
theorem synthesizeAdjustedInt_spec_witness :
    synthesizeAdjustedInt ⟨8, 42⟩
      = .ok (.cast .IntegralCast .unsignedChar (.intLit 42 .unsignedInt)) ∧
    synthesizeAdjustedInt ⟨16, 42⟩
      = .ok (.cast .IntegralCast .unsignedShort (.intLit 42 .unsignedInt)) ∧
    synthesizeAdjustedInt ⟨64, 42⟩ = synthesizeInt ⟨64, 42⟩ :=
  ⟨(synthesizeAdjustedInt_spec ⟨8, 42⟩).1 (Or.inr rfl),
   (synthesizeAdjustedInt_spec ⟨16, 42⟩).2.1 rfl,
   (synthesizeAdjustedInt_spec ⟨64, 42⟩).2.2 (by decide)⟩

/-- Claim C6: createNullConstant is an IntegerLiteral of value 0 and
unsigned-int type wrapped in a cast to void-pointer of kind
NullToPointer, and it satisfies the null-pointer-constant predicate
under all three evaluation contexts. -/
theorem createNullConstant_spec :
    createNullConstant
      = .cast .NullToPointer .voidPointer (.intLit 0 .unsignedInt) ∧
    isNullConstant createNullConstant .neverValueDependent = true ∧
    isNullConstant createNullConstant .valueDependentIsNull = true ∧
    isNullConstant createNullConstant .valueDependentIsNotNull = true :=
  ⟨rfl, rfl, rfl, rfl⟩

/-- Claim C7: for every builtin type t, createUndefined t is a
dereference whose static type is exactly t, whose operand is a cast of
the canonical null constant to pointer-to-t, and whose cast operand,
once casts are stripped, is recognized as a null-pointer constant
under all three evaluation contexts. -/
theorem createUndefined_spec (t : BuiltinType) :
    createUndefined t
      = .ok (.deref (.cast .BitCast (.pointer t) createNullConstant) t) ∧
    (Expression.deref (.cast .BitCast (.pointer t) createNullConstant)
        t).exprType = t ∧
    (Expression.cast .BitCast (.pointer t) createNullConstant).exprType
      = .pointer t ∧
    isNullConstant (Expression.ignoreCasts
        (.cast .BitCast (.pointer t) createNullConstant))
      .neverValueDependent = true ∧
    isNullConstant (Expression.ignoreCasts
        (.cast .BitCast (.pointer t) createNullConstant))
      .valueDependentIsNull = true ∧
    isNullConstant (Expression.ignoreCasts
        (.cast .BitCast (.pointer t) createNullConstant))
      .valueDependentIsNotNull = true :=
  ⟨rfl, rfl, rfl, rfl, rfl, rfl⟩

/-- Claim C7, witness: createUndefined at the builtin type double, the
instance the unit test exercises. -/
theorem createUndefined_spec_witness :
    createUndefined .double
      = .ok (.deref
          (.cast .BitCast (.pointer .double) createNullConstant) .double) ∧
    (Expression.deref
        (.cast .BitCast (.pointer .double) createNullConstant)
        .double).exprType = .double ∧
    isNullConstant (Expression.ignoreCasts
        (.cast .BitCast (.pointer .double) createNullConstant))
      .neverValueDependent = true :=
  ⟨(createUndefined_spec .double).1, (createUndefined_spec .double).2.1,
   (createUndefined_spec .double).2.2.2.1⟩

/-- Claim C8: synthesizeString types its StringLiteral as array-of-char
with declared length equal to the byte length of the input, and the
bytes of the string "a string" give declared length 8. -/
theorem synthesizeString_spec :
    (∀ bytes : List Nat,
      synthesizeString bytes = .strLit bytes (.arrayOfChar bytes.length)) ∧
    (synthesizeString [97, 32, 115, 116, 114, 105, 110, 103]).exprType
      = .arrayOfChar 8 :=
  ⟨fun _ => rfl, rfl⟩

/-- Claim C8, witness: the byte sequence of "a string" yields a
StringLiteral typed array-of-char of declared length 8. -/
theorem synthesizeString_spec_witness :
    synthesizeString [97, 32, 115, 116, 114, 105, 110, 103]
      = .strLit [97, 32, 115, 116, 114, 105, 110, 103] (.arrayOfChar 8) :=
  synthesizeString_spec.1 [97, 32, 115, 116, 114, 105, 110, 103]

/-- Claim C9: synthesizeChar returns a CharacterLiteral typed as the
signed int rank for every 8-bit value, and fails with InvalidWidth for
every other width. -/
theorem synthesizeChar_spec :
    (∀ v : IntegerValue, v.bitWidth = 8 →
      synthesizeChar v = .ok (.charLit v.magnitude .int)) ∧
    (∀ v : IntegerValue, v.bitWidth ≠ 8 →
      synthesizeChar v = .error .InvalidWidth) := by
  constructor
  · intro v h
    unfold synthesizeChar
    rw [if_pos h]
  · intro v h
    unfold synthesizeChar
    rw [if_neg h]

/-- Claim C9, witness: the 8-bit value 120 yields an int-typed
character literal, the 16-bit value 42 fails with InvalidWidth. -/
theorem synthesizeChar_spec_witness :
    synthesizeChar ⟨8, 120⟩ = .ok (.charLit 120 .int) ∧
    synthesizeChar ⟨16, 42⟩ = .error .InvalidWidth :=
  ⟨synthesizeChar_spec.1 ⟨8, 120⟩ rfl,
   synthesizeChar_spec.2 ⟨16, 42⟩ (by decide)⟩

/-- Claim C10: for every width strictly greater than 64, synthesizeInt
fails with UnsupportedWidth, and no Expression is produced at all: the
result is never an ok node, so nothing is truncated, wrapped or
partially constructed. -/
theorem synthesizeInt_rejects_wide :
    (∀ v : IntegerValue, 64 < v.bitWidth →
      synthesizeInt v = .error .UnsupportedWidth) ∧
    (∀ v : IntegerValue, 64 < v.bitWidth →
      ∀ e : Expression, synthesizeInt v ≠ .ok e) := by
  have herr : ∀ v : IntegerValue, 64 < v.bitWidth →
      synthesizeInt v = .error .UnsupportedWidth := by
    intro v h
    unfold synthesizeInt
    rw [if_neg (by omega), if_neg (by omega)]
  refine ⟨herr, ?_⟩
  intro v h e hc
  rw [herr v h] at hc
  exact Except.noConfusion hc

/-- Claim C10, witness: the 65-bit value 42 fails with UnsupportedWidth
and in particular is not returned as a truncated unsigned-long
literal. -/
theorem synthesizeInt_rejects_wide_witness :
    synthesizeInt ⟨65, 42⟩ = .error .UnsupportedWidth ∧
    synthesizeInt ⟨65, 42⟩ ≠ .ok (.intLit 42 .unsignedLong) :=
  ⟨synthesizeInt_rejects_wide.1 ⟨65, 42⟩ (by decide),
   synthesizeInt_rejects_wide.2 ⟨65, 42⟩ (by decide)
     (.intLit 42 .unsignedLong)⟩

end Rellic
